import Mathlib

/-
Verification of the Persona Interact admin panel
(src/persona_interact_action/app/app.py) against its natural-language
specification.

The module is a rendering and event-wiring layer over a remote backend
reached through jvclient's call_api.  We embed the panel's event handlers
as pure Lean functions over an explicit session state, with the external
collaborators modelled as parameters:

  * call_api returns a requests.Response object or None on transport
    failure; only the status code (and, for update_action, the decoded
    JSON body) is inspected by this module.  Python truthiness of a
    requests.Response is its ok flag, i.e. status_code < 400.
  * json.loads and yaml.safe_load are oracles of type
    String -> Except Unit PyValue: Except.error models the raised
    JSONDecodeError / YAMLError.
-/

set_option autoImplicit false

namespace PersonaInteract

/-- Python values as decoded from JSON or YAML documents (the dynamic
payloads this panel passes around). -/
inductive PyValue where
  | null
  | bool (b : Bool)
  | num (n : Int)
  | str (s : String)
  | list (xs : List PyValue)
  | dict (kvs : List (String × PyValue))

/-- Python truthiness of a decoded value: None, False, 0, "", [] and
\x7b\x7d are falsy, everything else truthy. -/
def truthy : PyValue → Bool
  | .null => false
  | .bool b => b
  | .num n => n != 0
  | .str s => s != ""
  | .list xs => !xs.isEmpty
  | .dict kvs => !kvs.isEmpty

/-- The Python builtin list() applied to a decoded value, as used at
app.py line 194 (`"data": list(data_to_import)`): a dict iterates over
its KEYS, a string over its one-character substrings, a list over its
elements; None, booleans and numbers are not iterable and raise
TypeError, modelled as Option.none. -/
def pyList : PyValue → Option (List PyValue)
  | .str s => some (s.data.map fun c => PyValue.str (String.mk [c]))
  | .list xs => some xs
  | .dict kvs => some (kvs.map fun kv => PyValue.str kv.fst)
  | _ => Option.none

/-- The slice of a requests.Response that this module inspects: its
status code.  jvclient's call_api returns such a response, or None
(modelled as Option.none on the caller's side) on transport failure. -/
structure Response where
  status_code : Nat
deriving DecidableEq

/-- Python truthiness of a requests.Response: Response.__bool__ returns
self.ok, which is true exactly when status_code < 400. -/
def responseTruthy (r : Response) : Bool := r.status_code < 400

/-- User-visible messages the import expander can emit
(st.error / st.success calls in _render_import_parameters). -/
inductive ImportMsg where
  | fileError       -- line 177: st.error("Error loading file: ...")
  | importSuccess   -- line 198: st.success("Agent parameters imported successfully")
  | importFailed    -- line 200: st.error("Failed to import parameters. ...")
  | noData          -- line 202: st.error("No data to import. ...")
deriving DecidableEq

/-- Exceptions that escape _render_import_parameters: the ValueError
raised at line 187 when the inline text is neither valid JSON nor valid
YAML, and the TypeError raised by list() at line 194 when the parsed
value is truthy but not iterable. -/
inductive ImportExn where
  | valueError
  | typeError
deriving DecidableEq

/-- Lines 178-187 of app.py: the inline-text branch of the import
handler.  `prev` is the value data_to_import holds before the branch
(the initial "" or the file branch's result); the branch runs only when
text_import is truthy (present and nonempty).  JSON is attempted first;
on JSONDecodeError YAML is attempted; on YAMLError a ValueError is
raised, uncaught. -/
def textStep (jsonLoads yamlLoad : String → Except Unit PyValue)
    (prev : PyValue) (textImport : Option String) : Except ImportExn PyValue :=
  match textImport with
  | some s =>
    if s ≠ "" then
      match jsonLoads s with
      | .ok v => .ok v
      | .error _ =>
        match yamlLoad s with
        | .ok v => .ok v
        | .error _ => .error ImportExn.valueError
    else .ok prev
  | Option.none => .ok prev

/-- Lines 189-202 of app.py: dispatch on the final data_to_import.  If
it is truthy, `list(data_to_import)` is sent as the data field of one
import_parameters request and the outcome message is chosen by `if
result:` — the Python truthiness of the call_api return value; otherwise
the "No data to import" message is shown.  Returns the emitted messages
together with the list of backend payloads sent. -/
def importDispatch (d : PyValue)
    (backend : List PyValue → Option Response) :
    Except ImportExn (List ImportMsg × List (List PyValue)) :=
  if truthy d then
    match pyList d with
    | some items =>
      match backend items with
      | some r =>
        if responseTruthy r then .ok ([ImportMsg.importSuccess], [items])
        else .ok ([ImportMsg.importFailed], [items])
      | Option.none => .ok ([ImportMsg.importFailed], [items])
    | Option.none => .error ImportExn.typeError
  else .ok ([ImportMsg.noData], [])

/-- Lines 169-177 of app.py: the uploaded-file branch.  A file is a pair
of its declared media type and its decoded content.  A file of type
"application/json" is parsed with json.loads, anything else with
yaml.safe_load; any exception is caught and surfaced as the file-error
message, leaving data_to_import at its initial "". -/
def fileStep (jsonLoads yamlLoad : String → Except Unit PyValue)
    (uploadedFile : Option (String × String)) : PyValue × List ImportMsg :=
  match uploadedFile with
  | some (ty, content) =>
    match (if ty = "application/json" then jsonLoads content else yamlLoad content) with
    | .ok v => (v, [])
    | .error _ => (PyValue.str "", [ImportMsg.fileError])
  | Option.none => (PyValue.str "", [])

/-- The whole Import-button handler, lines 168-202 of
_render_import_parameters: file branch, then inline-text branch, then
dispatch.  The result is Except.error when an exception propagates out
of the handler, otherwise the messages displayed and the payloads of the
import_parameters calls made. -/
def runImport (jsonLoads yamlLoad : String → Except Unit PyValue)
    (uploadedFile : Option (String × String)) (textImport : Option String)
    (backend : List PyValue → Option Response) :
    Except ImportExn (List ImportMsg × List (List PyValue)) :=
  match textStep jsonLoads yamlLoad
      (fileStep jsonLoads yamlLoad uploadedFile).fst textImport with
  | .error e => .error e
  | .ok d =>
    match importDispatch d backend with
    | .error e => .error e
    | .ok (msgs, calls) =>
      .ok ((fileStep jsonLoads yamlLoad uploadedFile).snd ++ msgs, calls)

/-- The decoded payload of a successful list_parameters response (lines
61-64 of app.py, with the same .get defaults). -/
structure Payload where
  items : List PyValue
  page : Nat
  total_pages : Nat
  has_previous : Bool
  has_next : Bool

/-- What the Parameters tab displays for the list_parameters call:
either the decoded page, or nothing.  `errors` records the user-visible
error messages emitted on this path. -/
structure ListRender where
  shown : Option Payload
  errors : List String

/-- Lines 56-64 of app.py: the list_parameters response handling.
`decoded` is what get_reports_payload would decode from a 200 response.
The source has `if result and result.status_code == 200:` with NO else
branch: on a transport failure (None) or any other status the run
renders neither the list nor any error message. -/
def renderParametersList (resp : Option Response) (decoded : Payload) : ListRender :=
  match resp with
  | some r =>
    if r.status_code = 200 then { shown := some decoded, errors := [] }
    else { shown := Option.none, errors := [] }
  | Option.none => { shown := Option.none, errors := [] }

/-- Lines 66-79 of app.py: the pagination controls.  A button can only
be clicked when it is rendered: the previous arrow exists only when the
payload says has_previous, the next arrow only when has_next.  A click
updates st.session_state.current_page with the source's max/min
expressions and reruns; with at most one click per run the previous
arrow is checked first, as in the source. -/
def navStep (currentPage : Nat) (p : Payload)
    (clickedPrev clickedNext : Bool) : Nat :=
  if p.has_previous && clickedPrev then max 1 (currentPage - 1)
  else if p.has_next && clickedNext then min p.total_pages (currentPage + 1)
  else currentPage

/-- The session-state slots this panel reads and writes:
st.session_state.current_page and st.session_state.per_page (lines
44-48), the model-scoped entry st.session_state[model_key]["page"]
written by the purge handler (line 248), and the purge-confirmation flag
st.session_state[f"\x7bmodel_key\x7d_purge_confirmation"] (lines 216-218). -/
structure SessionState where
  current_page : Nat
  per_page : Nat
  modelPage : Option Nat
  purgeConfirm : Bool
deriving DecidableEq

/-- Line 51 of app.py: the page field of the list_parameters request
body is st.session_state.current_page. -/
def listRequestPage (s : SessionState) : Nat := s.current_page

/-- A user action inside the purge expander during one run: clicking the
"Delete all parameters" trigger, the confirm button, the cancel button,
or nothing. -/
inductive PurgeEvent where
  | trigger
  | confirm
  | cancel
  | noop
deriving DecidableEq

/-- User-visible messages of the purge expander. -/
inductive PurgeMsg where
  | purgeSuccess  -- line 247: st.success("Collection purged successfully")
  | purgeFailed   -- line 250: st.error("Failed to complete purge.")
deriving DecidableEq

/-- Outcome of one run of the purge expander: the updated session state,
the number of delete_collection requests issued, and the messages
shown. -/
structure PurgeResult where
  state : SessionState
  deleteCalls : Nat
  msgs : List PurgeMsg
deriving DecidableEq

/-- Lines 216-256 of app.py, _render_purge_collection.  When the
confirmation flag is unset (Idle) only the trigger button is rendered,
and clicking it sets the flag.  When the flag is set
(AwaitingConfirmation), confirm issues one delete_collection call,
branches on `if call_api(...)` — Python truthiness of the response —
and clears the flag either way; cancel clears the flag with no call.
On success the handler writes 1 into st.session_state[model_key]["page"]
(modelPage), not into st.session_state.current_page. -/
def renderPurgeCollection (s : SessionState) (ev : PurgeEvent)
    (backend : Option Response) : PurgeResult :=
  if s.purgeConfirm = false then
    match ev with
    | .trigger => { state := { s with purgeConfirm := true }, deleteCalls := 0, msgs := [] }
    | _ => { state := s, deleteCalls := 0, msgs := [] }
  else
    match ev with
    | .confirm =>
      match backend with
      | some r =>
        if responseTruthy r then
          { state := { s with modelPage := some 1, purgeConfirm := false },
            deleteCalls := 1, msgs := [PurgeMsg.purgeSuccess] }
        else
          { state := { s with purgeConfirm := false },
            deleteCalls := 1, msgs := [PurgeMsg.purgeFailed] }
      | Option.none =>
        { state := { s with purgeConfirm := false },
          deleteCalls := 1, msgs := [PurgeMsg.purgeFailed] }
    | .cancel => { state := { s with purgeConfirm := false }, deleteCalls := 0, msgs := [] }
    | _ => { state := s, deleteCalls := 0, msgs := [] }

/-- Python dict.get with a default, over the association-list model of a
decoded JSON object. -/
def pyGet (d : List (String × PyValue)) (k : String) (dflt : PyValue) : PyValue :=
  match d.find? (fun kv => kv.fst == k) with
  | some kv => kv.snd
  | Option.none => dflt

/-- Whether a decoded JSON object has a given key. -/
def hasKey (d : List (String × PyValue)) (k : String) : Bool :=
  (d.find? (fun kv => kv.fst == k)).isSome

/-- Python `==` between a decoded value and a str, as in
`result.get("id", "") == action_id`: true exactly for an equal string. -/
def pyEqStr : PyValue → String → Bool
  | .str t, s => t == s
  | _, _ => false

/-- The slice of the update_action response this module inspects: status
code plus the decoded body's reports field (a list of decoded JSON
objects), defaulting to [] as in `result.get("reports", [])`. -/
structure UpdateResponse where
  status_code : Nat
  reports : List (List (String × PyValue))

/-- Lines 287-307 of app.py: call_update_action.  On a non-None response
with status 200 it returns reports[0] if reports is nonempty, else the
empty dict; on transport failure or any other status it returns the
empty dict. -/
def call_update_action (resp : Option UpdateResponse) : List (String × PyValue) :=
  match resp with
  | some r =>
    if r.status_code = 200 then
      match r.reports with
      | d :: _ => d
      | [] => []
    else []
  | Option.none => []

/-- Lines 130-133 of app.py: the Update button's success test,
`if result and result.get("id", "") == action_id:` — the dict is truthy
(nonempty) and its id field, defaulting to "", equals action_id. -/
def commitSuccess (action_id : String) (result : List (String × PyValue)) : Bool :=
  !result.isEmpty && pyEqStr (pyGet result "id" (PyValue.str "")) action_id

/-- The spec's reading of channel-format commit success: the returned
object carries an id field whose value is the action_id string that was
sent. -/
def carriesId (d : List (String × PyValue)) (aid : String) : Prop :=
  hasKey d "id" = true ∧ pyGet d "id" (PyValue.str "") = PyValue.str aid

/-- A concrete instantiation of the json.loads oracle recording its
behaviour on the inputs the claims exercise: the text `\x7b"a": 1\x7d`
is valid JSON denoting the one-entry mapping, while `a: 1` and
`\x7bnot valid` raise JSONDecodeError. -/
def jsonLoadsTbl : String → Except Unit PyValue := fun s =>
  if s = "\x7b\"a\": 1\x7d" then .ok (PyValue.dict [("a", PyValue.num 1)])
  else .error ()

/-- A concrete instantiation of the yaml.safe_load oracle recording its
behaviour on the inputs the claims exercise: `a: 1` parses to the
one-entry mapping, while `\x7bnot valid` (an unclosed flow mapping)
raises YAMLError. -/
def yamlLoadTbl : String → Except Unit PyValue := fun s =>
  if s = "a: 1" then .ok (PyValue.dict [("a", PyValue.num 1)])
  else .error ()

/-- A concrete instantiation of the json.loads oracle on a scalar
document: the text "5" is valid JSON denoting the number 5, a value that
is truthy but not iterable. -/
def jsonLoadsNum : String → Except Unit PyValue := fun s =>
  if s = "5" then .ok (PyValue.num 5) else .error ()

/-- A concrete instantiation of the json.loads oracle on an empty
document: the text `\x7b\x7d` is valid JSON denoting the empty mapping,
a falsy value. -/
def jsonLoadsEmpty : String → Except Unit PyValue := fun s =>
  if s = "\x7b\x7d" then .ok (PyValue.dict []) else .error ()

/-- pyEqStr holds exactly for the equal string value. -/
theorem pyEqStr_true_iff (v : PyValue) (s : String) :
    pyEqStr v s = true ↔ v = PyValue.str s := by
  cases v <;> simp [pyEqStr]

/-- textStep only fails by the ValueError of line 187, and only when the
text is present, nonempty, and rejected by both parsers. -/
theorem textStep_error (jsonLoads yamlLoad : String → Except Unit PyValue)
    (prev : PyValue) (t : Option String) (e : ImportExn)
    (h : textStep jsonLoads yamlLoad prev t = Except.error e) :
    e = ImportExn.valueError ∧ ∃ s, t = some s ∧ s ≠ "" ∧
      jsonLoads s = Except.error () ∧ yamlLoad s = Except.error () := by
  cases t with
  | none => simp [textStep] at h
  | some s =>
    by_cases hs : s = ""
    · subst hs
      simp [textStep] at h
    · rw [textStep, if_pos hs] at h
      cases hj : jsonLoads s with
      | ok v => rw [hj] at h; exact absurd h (by simp)
      | error u =>
        rw [hj] at h
        cases hy : yamlLoad s with
        | ok v => rw [hy] at h; exact absurd h (by simp)
        | error u2 =>
          rw [hy] at h
          cases u; cases u2
          exact ⟨by injection h with h1; exact h1.symm, s, rfl, hs, hj, hy⟩

/-- Unfolding lemma for importDispatch on a truthy, iterable value. -/
theorem importDispatch_truthy_some (d : PyValue) (items : List PyValue)
    (backend : List PyValue → Option Response)
    (hd : truthy d = true) (hl : pyList d = some items) :
    importDispatch d backend =
      (match backend items with
        | some r =>
          if responseTruthy r then Except.ok ([ImportMsg.importSuccess], [items])
          else Except.ok ([ImportMsg.importFailed], [items])
        | Option.none => Except.ok ([ImportMsg.importFailed], [items])) := by
  rw [importDispatch, if_pos hd, hl]

/-- importDispatch either returns normally with one nonempty message
list, or raises the TypeError of the list() call on a truthy
non-iterable value. -/
theorem importDispatch_outcomes (d : PyValue)
    (backend : List PyValue → Option Response) :
    (∃ msgs calls, importDispatch d backend = Except.ok (msgs, calls) ∧ msgs ≠ []) ∨
    (truthy d = true ∧ pyList d = Option.none ∧
      importDispatch d backend = Except.error ImportExn.typeError) := by
  by_cases hd : truthy d
  · cases hl : pyList d with
    | none => exact Or.inr ⟨hd, rfl, by rw [importDispatch, if_pos hd, hl]⟩
    | some items =>
      refine Or.inl ?_
      rw [importDispatch_truthy_some d items backend hd hl]
      cases hb : backend items with
      | none => exact ⟨[ImportMsg.importFailed], [items], rfl, by simp⟩
      | some r =>
        by_cases hr : responseTruthy r
        · exact ⟨[ImportMsg.importSuccess], [items], by simp [hr], by simp⟩
        · exact ⟨[ImportMsg.importFailed], [items], by simp [hr], by simp⟩
  · exact Or.inl ⟨[ImportMsg.noData], [], by rw [importDispatch, if_neg hd], by simp⟩

/-- Unfolding lemma: when the text branch raises, the exception
propagates out of the handler. -/
theorem runImport_eq_error (jsonLoads yamlLoad : String → Except Unit PyValue)
    (uploadedFile : Option (String × String)) (t : Option String)
    (backend : List PyValue → Option Response) (e : ImportExn)
    (ht : textStep jsonLoads yamlLoad
      (fileStep jsonLoads yamlLoad uploadedFile).fst t = Except.error e) :
    runImport jsonLoads yamlLoad uploadedFile t backend = Except.error e := by
  rw [runImport, ht]

/-- Unfolding lemma: when the text branch returns a value, the handler
continues with importDispatch, prefixing any file-branch message. -/
theorem runImport_eq_ok (jsonLoads yamlLoad : String → Except Unit PyValue)
    (uploadedFile : Option (String × String)) (t : Option String)
    (backend : List PyValue → Option Response) (d : PyValue)
    (ht : textStep jsonLoads yamlLoad
      (fileStep jsonLoads yamlLoad uploadedFile).fst t = Except.ok d) :
    runImport jsonLoads yamlLoad uploadedFile t backend =
      (match importDispatch d backend with
        | Except.error e => Except.error e
        | Except.ok (msgs, calls) =>
          Except.ok ((fileStep jsonLoads yamlLoad uploadedFile).snd ++ msgs, calls)) := by
  rw [runImport, ht]

/-- C1: FAILS as stated.  The Import handler decides success with
`if result:` — Python truthiness of the requests.Response — not with
`result.status_code == 200`.  A backend reply with status 201 (any
status below 400) is reported as a successful import. -/
theorem import_success_at_status_201 :
    importDispatch (PyValue.list [PyValue.num 1]) (fun _ => some ⟨201⟩) =
      Except.ok ([ImportMsg.importSuccess], [[PyValue.num 1]]) ∧
    (201 : Nat) ≠ 200 :=
  ⟨rfl, by decide⟩

/-- C1 (amended): for a truthy, iterable parsed value, the Import
handler reports success if and only if call_api returned a response
object with status_code < 400 (the truthy responses); a transport
failure (None) or a status of 400 or more is reported as a failed
import. -/
theorem import_success_iff_truthy_response (d : PyValue)
    (backend : List PyValue → Option Response) (items : List PyValue)
    (hd : truthy d = true) (hl : pyList d = some items) :
    (importDispatch d backend = Except.ok ([ImportMsg.importSuccess], [items]) ↔
      ∃ r, backend items = some r ∧ r.status_code < 400) ∧
    (importDispatch d backend = Except.ok ([ImportMsg.importSuccess], [items]) ∨
      importDispatch d backend = Except.ok ([ImportMsg.importFailed], [items])) := by
  rw [importDispatch_truthy_some d items backend hd hl]
  cases hb : backend items with
  | none => simp
  | some r =>
    by_cases hr : responseTruthy r
    · have hr400 : r.status_code < 400 := by
        simpa [responseTruthy] using hr
      simp [hr, hr400]
    · have hr400 : ¬ r.status_code < 400 := by
        simpa [responseTruthy] using hr
      simp [hr, hr400]

theorem import_success_iff_truthy_response_witness :
    importDispatch (PyValue.list [PyValue.num 1]) (fun _ => some ⟨200⟩) =
      Except.ok ([ImportMsg.importSuccess], [[PyValue.num 1]]) :=
  (import_success_iff_truthy_response (PyValue.list [PyValue.num 1])
      (fun _ => some ⟨200⟩) [PyValue.num 1] rfl rfl).1.mpr
    ⟨⟨200⟩, rfl, by decide⟩

/-- C2: FAILS as stated.  Inline text that is neither valid JSON nor
valid YAML does not produce a user-visible message: line 187 raises a
ValueError that propagates out of the handler. -/
theorem import_text_exception_propagates :
    runImport jsonLoadsTbl yamlLoadTbl Option.none (some "\x7bnot valid")
      (fun _ => some ⟨200⟩) = Except.error ImportExn.valueError :=
  rfl

/-- C2 (amended): every run of the Import handler either returns
normally having displayed at least one user-visible message, or raises
the uncaught ValueError of line 187 (exactly when inline text is
rejected by both parsers), or raises the uncaught TypeError of list()
at line 194 (exactly when the parsed value is truthy but not iterable).
Each error condition is surfaced: a both-parsers failure raises the
ValueError; a truthy non-iterable parse raises the TypeError; an empty
(falsy) parse ends with the no-data message; a transport failure or a
non-truthy backend status on the import call ends with the
import-failed message; a file-load error produces the file-error
message, which prefixes every normal return. -/
theorem import_handler_outcomes (jsonLoads yamlLoad : String → Except Unit PyValue)
    (uploadedFile : Option (String × String)) (t : Option String)
    (backend : List PyValue → Option Response) :
    ((∃ msgs calls,
      runImport jsonLoads yamlLoad uploadedFile t backend = Except.ok (msgs, calls) ∧
      msgs ≠ []) ∨
    (∃ s, t = some s ∧ s ≠ "" ∧
      jsonLoads s = Except.error () ∧ yamlLoad s = Except.error () ∧
      runImport jsonLoads yamlLoad uploadedFile t backend =
        Except.error ImportExn.valueError) ∨
    (∃ d, textStep jsonLoads yamlLoad
        (fileStep jsonLoads yamlLoad uploadedFile).fst t = Except.ok d ∧
      truthy d = true ∧ pyList d = Option.none ∧
      runImport jsonLoads yamlLoad uploadedFile t backend =
        Except.error ImportExn.typeError)) ∧
    (∀ d, textStep jsonLoads yamlLoad
        (fileStep jsonLoads yamlLoad uploadedFile).fst t = Except.ok d →
      truthy d = true → pyList d = Option.none →
      runImport jsonLoads yamlLoad uploadedFile t backend =
        Except.error ImportExn.typeError) ∧
    (∀ s, t = some s → s ≠ "" →
      jsonLoads s = Except.error () → yamlLoad s = Except.error () →
      runImport jsonLoads yamlLoad uploadedFile t backend =
        Except.error ImportExn.valueError) ∧
    (∀ d, textStep jsonLoads yamlLoad
        (fileStep jsonLoads yamlLoad uploadedFile).fst t = Except.ok d →
      truthy d = false →
      runImport jsonLoads yamlLoad uploadedFile t backend =
        Except.ok ((fileStep jsonLoads yamlLoad uploadedFile).snd ++
          [ImportMsg.noData], [])) ∧
    (∀ d items, textStep jsonLoads yamlLoad
        (fileStep jsonLoads yamlLoad uploadedFile).fst t = Except.ok d →
      truthy d = true → pyList d = some items → backend items = Option.none →
      runImport jsonLoads yamlLoad uploadedFile t backend =
        Except.ok ((fileStep jsonLoads yamlLoad uploadedFile).snd ++
          [ImportMsg.importFailed], [items])) ∧
    (∀ d items r, textStep jsonLoads yamlLoad
        (fileStep jsonLoads yamlLoad uploadedFile).fst t = Except.ok d →
      truthy d = true → pyList d = some items → backend items = some r →
      responseTruthy r = false →
      runImport jsonLoads yamlLoad uploadedFile t backend =
        Except.ok ((fileStep jsonLoads yamlLoad uploadedFile).snd ++
          [ImportMsg.importFailed], [items])) ∧
    (∀ ty content, uploadedFile = some (ty, content) →
      (if ty = "application/json" then jsonLoads content else yamlLoad content) =
        Except.error () →
      (fileStep jsonLoads yamlLoad uploadedFile).snd = [ImportMsg.fileError]) := by
  refine ⟨?_, ?_, ?_, ?_, ?_, ?_, ?_⟩
  · cases ht : textStep jsonLoads yamlLoad
        (fileStep jsonLoads yamlLoad uploadedFile).fst t with
    | error e =>
      obtain ⟨he, s, hts, hs, hj, hy⟩ :=
        textStep_error jsonLoads yamlLoad _ t e ht
      subst he
      exact Or.inr (Or.inl ⟨s, hts, hs, hj, hy,
        runImport_eq_error jsonLoads yamlLoad uploadedFile t backend _ ht⟩)
    | ok d =>
      rcases importDispatch_outcomes d backend with ⟨msgs, calls, hok, hne⟩ | ⟨hd, hl, herr⟩
      · refine Or.inl ⟨(fileStep jsonLoads yamlLoad uploadedFile).snd ++ msgs, calls,
          ?_, by simp [hne]⟩
        rw [runImport_eq_ok jsonLoads yamlLoad uploadedFile t backend d ht, hok]
      · refine Or.inr (Or.inr ⟨d, rfl, hd, hl, ?_⟩)
        rw [runImport_eq_ok jsonLoads yamlLoad uploadedFile t backend d ht, herr]
  · intro d ht hd hl
    rw [runImport_eq_ok jsonLoads yamlLoad uploadedFile t backend d ht,
      importDispatch, if_pos hd, hl]
  · intro s hts hs hj hy
    subst hts
    refine runImport_eq_error jsonLoads yamlLoad uploadedFile (some s) backend _ ?_
    rw [textStep, if_pos hs, hj, hy]
  · intro d ht he
    rw [runImport_eq_ok jsonLoads yamlLoad uploadedFile t backend d ht,
      importDispatch, if_neg (by simp [he])]
  · intro d items ht hd hl hb
    rw [runImport_eq_ok jsonLoads yamlLoad uploadedFile t backend d ht,
      importDispatch_truthy_some d items backend hd hl, hb]
  · intro d items r ht hd hl hb hr
    rw [runImport_eq_ok jsonLoads yamlLoad uploadedFile t backend d ht,
      importDispatch_truthy_some d items backend hd hl]
    simp only [hb]
    rw [if_neg (by simp [hr])]
  · intro ty content hf herr
    subst hf
    rw [fileStep, herr]

theorem import_handler_outcomes_witness :
    runImport jsonLoadsNum yamlLoadTbl Option.none (some "5")
      (fun _ => some ⟨200⟩) = Except.error ImportExn.typeError ∧
    runImport jsonLoadsNum yamlLoadTbl (some ("application/json", "nope"))
      Option.none (fun _ => some ⟨200⟩) =
      Except.ok ([ImportMsg.fileError, ImportMsg.noData], []) ∧
    runImport jsonLoadsTbl yamlLoadTbl Option.none (some "a: 1")
      (fun _ => Option.none) =
      Except.ok ([ImportMsg.importFailed], [[PyValue.str "a"]]) :=
  ⟨(import_handler_outcomes jsonLoadsNum yamlLoadTbl Option.none (some "5")
      (fun _ => some ⟨200⟩)).2.1 (PyValue.num 5) rfl rfl rfl,
   (import_handler_outcomes jsonLoadsNum yamlLoadTbl
      (some ("application/json", "nope")) Option.none
      (fun _ => some ⟨200⟩)).2.2.2.1 (PyValue.str "") rfl rfl,
   (import_handler_outcomes jsonLoadsTbl yamlLoadTbl Option.none (some "a: 1")
      (fun _ => Option.none)).2.2.2.2.1 (PyValue.dict [("a", PyValue.num 1)])
      [PyValue.str "a"] rfl rfl rfl rfl⟩

/-- C3: FAILS as stated.  The text `\x7b"a": 1\x7d` does parse strictly
as JSON into the mapping, but the handler then sends
`list(data_to_import)` — the list of the mapping's KEYS — so the data
field of the import_parameters request is ["a"], not the mapping
itself. -/
theorem import_sends_dict_keys :
    runImport jsonLoadsTbl yamlLoadTbl Option.none (some "\x7b\"a\": 1\x7d")
      (fun _ => some ⟨200⟩) =
      Except.ok ([ImportMsg.importSuccess], [[PyValue.str "a"]]) ∧
    [PyValue.str "a"] ≠ [PyValue.dict [("a", PyValue.num 1)]] := by
  refine ⟨rfl, ?_⟩
  intro h
  injection h with h1 h2
  exact PyValue.noConfusion h1

/-- C3 (amended): the inline text `\x7b"a": 1\x7d` is parsed strictly as
JSON, yielding the one-entry mapping, and the handler issues a single
import_parameters request whose data field is list(mapping), i.e. the
key list ["a"]; the text `a: 1` fails the JSON parse and is parsed as
YAML, yielding the mapping; the text `\x7bnot valid` fails both parses
and raises the handler's ValueError (its ImportParseError). -/
theorem import_normalizer_paths (jsonLoads yamlLoad : String → Except Unit PyValue)
    (backend : List PyValue → Option Response)
    (h1 : jsonLoads "\x7b\"a\": 1\x7d" = Except.ok (PyValue.dict [("a", PyValue.num 1)]))
    (h2 : jsonLoads "a: 1" = Except.error ())
    (h3 : yamlLoad "a: 1" = Except.ok (PyValue.dict [("a", PyValue.num 1)]))
    (h4 : jsonLoads "\x7bnot valid" = Except.error ())
    (h5 : yamlLoad "\x7bnot valid" = Except.error ()) :
    (∃ msgs, runImport jsonLoads yamlLoad Option.none (some "\x7b\"a\": 1\x7d") backend =
      Except.ok (msgs, [[PyValue.str "a"]])) ∧
    textStep jsonLoads yamlLoad (PyValue.str "") (some "a: 1") =
      Except.ok (PyValue.dict [("a", PyValue.num 1)]) ∧
    textStep jsonLoads yamlLoad (PyValue.str "") (some "\x7bnot valid") =
      Except.error ImportExn.valueError := by
  refine ⟨?_, ?_, ?_⟩
  · have ht : textStep jsonLoads yamlLoad
        (fileStep jsonLoads yamlLoad Option.none).fst (some "\x7b\"a\": 1\x7d") =
        Except.ok (PyValue.dict [("a", PyValue.num 1)]) := by
      show textStep jsonLoads yamlLoad (PyValue.str "") (some "\x7b\"a\": 1\x7d") = _
      rw [textStep, if_pos (by decide : ("\x7b\"a\": 1\x7d" : String) ≠ ""), h1]
    rw [runImport_eq_ok jsonLoads yamlLoad Option.none (some "\x7b\"a\": 1\x7d") backend
        (PyValue.dict [("a", PyValue.num 1)]) ht]
    rw [importDispatch_truthy_some (PyValue.dict [("a", PyValue.num 1)]) [PyValue.str "a"]
        backend (by decide) rfl]
    cases hb : backend [PyValue.str "a"] with
    | none => exact ⟨[ImportMsg.importFailed], rfl⟩
    | some r =>
      by_cases hr : responseTruthy r
      · exact ⟨[ImportMsg.importSuccess], by simp [hr, fileStep]⟩
      · exact ⟨[ImportMsg.importFailed], by simp [hr, fileStep]⟩
  · rw [textStep, if_pos (by decide : ("a: 1" : String) ≠ ""), h2, h3]
  · rw [textStep, if_pos (by decide : ("\x7bnot valid" : String) ≠ ""), h4, h5]

theorem import_normalizer_paths_witness :
    (∃ msgs, runImport jsonLoadsTbl yamlLoadTbl Option.none
        (some "\x7b\"a\": 1\x7d") (fun _ => some ⟨404⟩) =
      Except.ok (msgs, [[PyValue.str "a"]])) ∧
    textStep jsonLoadsTbl yamlLoadTbl (PyValue.str "") (some "a: 1") =
      Except.ok (PyValue.dict [("a", PyValue.num 1)]) ∧
    textStep jsonLoadsTbl yamlLoadTbl (PyValue.str "") (some "\x7bnot valid") =
      Except.error ImportExn.valueError :=
  import_normalizer_paths jsonLoadsTbl yamlLoadTbl (fun _ => some ⟨404⟩)
    rfl rfl rfl rfl rfl

/-- C4: the purge confirmation state machine.  From an Idle state
(confirmation flag unset), the trigger transitions to
AwaitingConfirmation without any backend call; from there cancel returns
to Idle with zero delete_collection calls, and confirm issues exactly
one delete_collection call and returns to Idle whatever the backend
response (success, error status, or transport failure). -/
theorem purge_confirmation_paths (s : SessionState) (b bc : Option Response)
    (hidle : s.purgeConfirm = false) :
    (renderPurgeCollection s PurgeEvent.trigger b).deleteCalls = 0 ∧
    (renderPurgeCollection s PurgeEvent.trigger b).state.purgeConfirm = true ∧
    (renderPurgeCollection (renderPurgeCollection s PurgeEvent.trigger b).state
        PurgeEvent.cancel bc).deleteCalls = 0 ∧
    (renderPurgeCollection (renderPurgeCollection s PurgeEvent.trigger b).state
        PurgeEvent.cancel bc).state.purgeConfirm = false ∧
    (renderPurgeCollection (renderPurgeCollection s PurgeEvent.trigger b).state
        PurgeEvent.confirm bc).deleteCalls = 1 ∧
    (renderPurgeCollection (renderPurgeCollection s PurgeEvent.trigger b).state
        PurgeEvent.confirm bc).state.purgeConfirm = false := by
  have h1 : renderPurgeCollection s PurgeEvent.trigger b =
      { state := { s with purgeConfirm := true }, deleteCalls := 0, msgs := [] } := by
    rw [renderPurgeCollection, if_pos hidle]
  rw [h1]
  refine ⟨rfl, rfl, ?_, ?_, ?_, ?_⟩ <;>
    cases bc with
    | none => simp [renderPurgeCollection]
    | some r =>
      by_cases hr : responseTruthy r <;> simp [renderPurgeCollection, hr]

theorem purge_confirmation_paths_witness :
    (renderPurgeCollection (renderPurgeCollection ⟨1, 10, Option.none, false⟩
        PurgeEvent.trigger Option.none).state
        PurgeEvent.confirm (some ⟨200⟩)).deleteCalls = 1 ∧
    (renderPurgeCollection (renderPurgeCollection ⟨1, 10, Option.none, false⟩
        PurgeEvent.trigger Option.none).state
        PurgeEvent.cancel (some ⟨200⟩)).deleteCalls = 0 :=
  ⟨(purge_confirmation_paths ⟨1, 10, Option.none, false⟩ Option.none
      (some ⟨200⟩) rfl).2.2.2.2.1,
   (purge_confirmation_paths ⟨1, 10, Option.none, false⟩ Option.none
      (some ⟨200⟩) rfl).2.2.1⟩

/-- C5: pagination navigation.  With the current page at least 1, a
click on the previous arrow (rendered only when has_previous) sets the
page to max 1 (page - 1), which is never below 1, so the following
list_parameters request never uses page 0; a click on the next arrow
(rendered only when has_next) sets the page to min total_pages
(page + 1), never beyond the server-reported total_pages; and when
has_next is false the next control is absent, so the page cannot move
forward. -/
theorem pagination_step_bounds (cp : Nat) (p : Payload) (hcp : 1 ≤ cp) :
    (p.has_previous = true →
      navStep cp p true false = max 1 (cp - 1) ∧ 1 ≤ navStep cp p true false) ∧
    (p.has_next = true →
      navStep cp p false true = min p.total_pages (cp + 1) ∧
      navStep cp p false true ≤ p.total_pages) ∧
    (p.has_next = false → navStep cp p false true = cp) ∧
    (p.has_previous = false → navStep cp p true false = cp) := by
  refine ⟨fun hp => ?_, fun hn => ?_, fun hn => ?_, fun hp => ?_⟩
  · rw [navStep]
    rw [if_pos (by simp [hp])]
    exact ⟨rfl, le_max_left 1 (cp - 1)⟩
  · rw [navStep]
    rw [if_neg (by simp), if_pos (by simp [hn])]
    exact ⟨rfl, min_le_left p.total_pages (cp + 1)⟩
  · rw [navStep]
    rw [if_neg (by simp), if_neg (by simp [hn])]
  · rw [navStep]
    rw [if_neg (by simp [hp]), if_neg (by simp)]

theorem pagination_step_bounds_witness :
    navStep 1 (Payload.mk [] 1 3 false true) true false = 1 ∧
    navStep 1 (Payload.mk [] 1 3 false true) false true = 2 :=
  ⟨(pagination_step_bounds 1 (Payload.mk [] 1 3 false true) (by decide)).2.2.2 rfl,
   ((pagination_step_bounds 1 (Payload.mk [] 1 3 false true) (by decide)).2.1 rfl).1⟩

/-- C6: FAILS as stated.  The list_parameters handling has no else
branch: on a transport failure (None) or a non-200 status the run
renders no error message at all (and does not re-render the previous
page either) — the failure is silent, not a rendered non-fatal error. -/
theorem list_failure_renders_nothing :
    (renderParametersList Option.none (Payload.mk [] 1 1 false false)).errors = [] ∧
    (renderParametersList Option.none (Payload.mk [] 1 1 false false)).shown =
      Option.none ∧
    (renderParametersList (some ⟨500⟩) (Payload.mk [] 1 1 false false)).errors = [] ∧
    (renderParametersList (some ⟨500⟩) (Payload.mk [] 1 1 false false)).shown =
      Option.none :=
  ⟨rfl, rfl, rfl, rfl⟩

/-- C6 (amended): on a transport failure or any non-200 status the
caller renders nothing for the list section: no items are shown and no
error message is emitted; the failure is silent (though no exception is
raised and the rest of the panel still renders). -/
theorem list_failure_silent (resp : Option Response) (decoded : Payload)
    (hfail : ∀ r, resp = some r → r.status_code ≠ 200) :
    renderParametersList resp decoded = ListRender.mk Option.none [] := by
  cases resp with
  | none => rfl
  | some r =>
    rw [renderParametersList, if_neg (hfail r rfl)]

theorem list_failure_silent_witness :
    renderParametersList (some ⟨500⟩) (Payload.mk [] 1 1 false false) =
      ListRender.mk Option.none [] :=
  list_failure_silent (some ⟨500⟩) (Payload.mk [] 1 1 false false)
    (fun r h => by cases h; decide)

/-- C7: the inline-text normalizer attempts a strict JSON parse first —
and when it succeeds the YAML parser is never consulted (the result does
not depend on it); YAML is attempted only after a JSON failure; the
ValueError (ImportParseError) is raised exactly when both parsers
fail. -/
theorem text_parse_precedence (jsonLoads yamlLoad yamlLoad2 : String → Except Unit PyValue)
    (prev : PyValue) (s : String) (hs : s ≠ "") :
    (∀ v, jsonLoads s = Except.ok v →
      textStep jsonLoads yamlLoad prev (some s) = Except.ok v ∧
      textStep jsonLoads yamlLoad prev (some s) =
        textStep jsonLoads yamlLoad2 prev (some s)) ∧
    (∀ v, jsonLoads s = Except.error () → yamlLoad s = Except.ok v →
      textStep jsonLoads yamlLoad prev (some s) = Except.ok v) ∧
    (jsonLoads s = Except.error () → yamlLoad s = Except.error () →
      textStep jsonLoads yamlLoad prev (some s) = Except.error ImportExn.valueError) ∧
    (∀ e, textStep jsonLoads yamlLoad prev (some s) = Except.error e →
      jsonLoads s = Except.error () ∧ yamlLoad s = Except.error ()) := by
  refine ⟨fun v hj => ?_, fun v hj hy => ?_, fun hj hy => ?_, fun e he => ?_⟩
  · constructor <;> rw [textStep, if_pos hs, hj]
    rw [textStep, if_pos hs, hj]
  · rw [textStep, if_pos hs, hj, hy]
  · rw [textStep, if_pos hs, hj, hy]
  · obtain ⟨_, s2, hs2, _, hj, hy⟩ :=
      textStep_error jsonLoads yamlLoad prev (some s) e he
    injection hs2 with hs2
    subst hs2
    exact ⟨hj, hy⟩

theorem text_parse_precedence_witness :
    textStep jsonLoadsTbl yamlLoadTbl (PyValue.str "") (some "a: 1") =
      Except.ok (PyValue.dict [("a", PyValue.num 1)]) :=
  (text_parse_precedence jsonLoadsTbl yamlLoadTbl yamlLoadTbl (PyValue.str "")
      "a: 1" (by decide)).2.1 (PyValue.dict [("a", PyValue.num 1)]) rfl rfl

/-- C8: every import input — inline text, an uploaded file, or neither —
whose parse succeeds but yields an empty (falsy) value (including empty
or absent text with no file, and files decoding to an empty mapping or
sequence) is reported with the distinct "No data to import" message:
the handler returns normally, makes no import_parameters call, and the
outcome is neither the parse-error exception nor the import-failure
message (the only other message possibly present is a prior
file-load-error message). -/
theorem empty_import_distinct (jsonLoads yamlLoad : String → Except Unit PyValue)
    (uploadedFile : Option (String × String)) (t : Option String)
    (backend : List PyValue → Option Response) (d : PyValue)
    (hp : textStep jsonLoads yamlLoad
      (fileStep jsonLoads yamlLoad uploadedFile).fst t = Except.ok d)
    (he : truthy d = false) :
    runImport jsonLoads yamlLoad uploadedFile t backend =
      Except.ok ((fileStep jsonLoads yamlLoad uploadedFile).snd ++
        [ImportMsg.noData], []) ∧
    ImportMsg.noData ≠ ImportMsg.importFailed ∧
    ImportMsg.noData ≠ ImportMsg.fileError ∧
    runImport jsonLoads yamlLoad uploadedFile t backend ≠
      Except.error ImportExn.valueError ∧
    runImport jsonLoads yamlLoad uploadedFile t backend ≠
      Except.error ImportExn.typeError := by
  have h1 : runImport jsonLoads yamlLoad uploadedFile t backend =
      Except.ok ((fileStep jsonLoads yamlLoad uploadedFile).snd ++
        [ImportMsg.noData], []) := by
    rw [runImport_eq_ok jsonLoads yamlLoad uploadedFile t backend d hp]
    rw [importDispatch, if_neg (by simp [he])]
  refine ⟨h1, by decide, by decide, ?_, ?_⟩ <;>
    rw [h1] <;> exact fun hcon => Except.noConfusion hcon

theorem empty_import_distinct_witness :
    runImport jsonLoadsTbl yamlLoadTbl Option.none (some "")
      (fun _ => some ⟨200⟩) = Except.ok ([ImportMsg.noData], []) ∧
    runImport jsonLoadsEmpty yamlLoadTbl (some ("application/json", "\x7b\x7d"))
      Option.none (fun _ => some ⟨200⟩) = Except.ok ([ImportMsg.noData], []) :=
  ⟨(empty_import_distinct jsonLoadsTbl yamlLoadTbl Option.none (some "")
      (fun _ => some ⟨200⟩) (PyValue.str "") rfl rfl).1,
   (empty_import_distinct jsonLoadsEmpty yamlLoadTbl
      (some ("application/json", "\x7b\x7d")) Option.none
      (fun _ => some ⟨200⟩) (PyValue.dict []) rfl rfl).1⟩

/-- C9: FAILS as stated.  The success test is
`result and result.get("id", "") == action_id`; when action_id is the
empty string, a nonempty response object that carries NO id field at all
is still reported as success, because the .get default "" compares equal
to the action_id sent. -/
theorem commit_success_without_id_field :
    commitSuccess "" (call_update_action
      (some ⟨200, [[("foo", PyValue.num 1)]]⟩)) = true ∧
    hasKey (call_update_action
      (some ⟨200, [[("foo", PyValue.num 1)]]⟩)) "id" = false :=
  ⟨rfl, rfl⟩

/-- C9 (amended): for every nonempty action_id, the channel-format
commit reports success if and only if the returned object carries an id
field equal to the action_id sent; a transport failure, a non-200
status, an empty reports list or a mismatched id are all reported as
failure.  (When action_id = "" the code also accepts a nonempty object
with no id field, via the .get default.) -/
theorem commit_success_iff_carries_id (aid : String) (d : List (String × PyValue))
    (ha : aid ≠ "") :
    commitSuccess aid d = true ↔ carriesId d aid := by
  rw [commitSuccess, carriesId, hasKey, pyGet]
  cases hf : d.find? (fun kv => kv.fst == "id") with
  | none =>
    simp only [Option.isSome_none]
    constructor
    · intro h
      rcases Bool.and_eq_true_iff.mp h with ⟨_, h2⟩
      rw [pyEqStr_true_iff] at h2
      injection h2 with h2
      exact absurd h2.symm ha
    · rintro ⟨h, _⟩
      exact absurd h (by simp)
  | some kv =>
    have hd : d ≠ [] := by
      intro hnil
      rw [hnil] at hf
      simp at hf
    simp only [Option.isSome_some, true_and]
    constructor
    · intro h
      rcases Bool.and_eq_true_iff.mp h with ⟨_, h2⟩
      exact (pyEqStr_true_iff kv.snd aid).mp h2
    · intro h
      refine Bool.and_eq_true_iff.mpr ⟨?_, (pyEqStr_true_iff kv.snd aid).mpr h⟩
      simp [hd]

theorem commit_success_iff_carries_id_witness :
    commitSuccess "abc" [("id", PyValue.str "abc")] = true :=
  (commit_success_iff_carries_id "abc" [("id", PyValue.str "abc")]
    (by decide)).mpr ⟨rfl, rfl⟩

/-- C10: confirming a purge never touches the pagination key the list
request actually reads.  Whatever the purge expander does in one run,
st.session_state.current_page — and hence the page field of the next
list_parameters request — is unchanged; the post-purge reset writes
page 1 only into the model-scoped entry st.session_state[model_key]["page"]
(modelPage). -/
theorem purge_preserves_current_page (s : SessionState) (ev : PurgeEvent)
    (b : Option Response) :
    (renderPurgeCollection s ev b).state.current_page = s.current_page ∧
    listRequestPage (renderPurgeCollection s ev b).state = listRequestPage s ∧
    (s.purgeConfirm = true → ∀ r, b = some r → responseTruthy r = true →
      (renderPurgeCollection s PurgeEvent.confirm b).state.modelPage = some 1) := by
  refine ⟨?_, ?_, ?_⟩
  · by_cases hc : s.purgeConfirm = false <;>
      cases ev <;> cases b <;>
      simp [renderPurgeCollection, hc, listRequestPage] <;>
      split <;> rfl
  · by_cases hc : s.purgeConfirm = false <;>
      cases ev <;> cases b <;>
      simp [renderPurgeCollection, hc, listRequestPage] <;>
      split <;> rfl
  · intro hT r hb hr
    subst hb
    have hc : ¬ s.purgeConfirm = false := by simp [hT]
    rw [renderPurgeCollection, if_neg hc]
    simp [hr]

theorem purge_preserves_current_page_witness :
    (renderPurgeCollection ⟨5, 10, Option.none, true⟩ PurgeEvent.confirm
      (some ⟨200⟩)).state.current_page = 5 ∧
    (renderPurgeCollection ⟨5, 10, Option.none, true⟩ PurgeEvent.confirm
      (some ⟨200⟩)).state.modelPage = some 1 :=
  ⟨(purge_preserves_current_page ⟨5, 10, Option.none, true⟩ PurgeEvent.confirm
      (some ⟨200⟩)).1,
   (purge_preserves_current_page ⟨5, 10, Option.none, true⟩ PurgeEvent.confirm
      (some ⟨200⟩)).2.2 rfl ⟨200⟩ rfl (by decide)⟩

end PersonaInteract
